import Mathlib

/-!
Verification of the token lifecycle manager, admission controller, auth gate
and forwarding gateway of the datalab backend, as a shallow embedding of the
Python sources (src/api/app and src/backend/apps/api_gateway).

Timestamps (datetime.now(timezone.utc) values and time.time() values) are
modelled as integers on an arbitrary linear scale; every claim below only
compares instants and shifts them by durations, which the integer model
preserves. Database sessions are modelled by explicit state passing: the
refresh_tokens table is a list of rows in insertion order, and every commit
point of the source is a distinct state in the embedding.
-/

namespace DataLab

/-- Model of a timestamp. -/
abbrev Time := ℤ

/-! ## src/api/app/models.py -/

/-- Embedding of the RefreshToken ORM row (src/api/app/models.py). -/
structure RefreshTokenRec where
  id : Nat
  user_id : Nat
  token_hash : String
  expires_at : Time
  revoked_at : Option Time
  user_agent : Option String
  ip_address : Option String
  created_at : Time
  deriving Repr, DecidableEq

/-- RefreshToken.is_revoked: revoked_at is not None. -/
def RefreshTokenRec.is_revoked (r : RefreshTokenRec) : Bool :=
  r.revoked_at.isSome

/-- RefreshToken.is_expired, read at the instant now:
datetime.now(timezone.utc) > self.expires_at (strict greater-than). -/
def RefreshTokenRec.is_expired (r : RefreshTokenRec) (now : Time) : Bool :=
  now > r.expires_at

/-- The refresh_tokens table, in insertion order; db.add appends, and
query(RefreshToken).first() scans in this order. -/
abbrev TokenDb := List RefreshTokenRec

/-! ## src/api/app/security.py -/

/-- JWTManager.hash_token: hashlib.sha256(token.encode()).hexdigest().
The SHA-256 hex digest is modelled as an abstract deterministic tagging
function; the proofs use only determinism together with explicit
no-collision hypotheses, never any structure of the digest. -/
def hash_token (token : String) : String :=
  String.append "sha256:" token

/-- Lowercasing of one ASCII character, the effect of str.lower() on the
characters the claims exercise. -/
def lowerChar (c : Char) : Char :=
  if 65 ≤ c.toNat ∧ c.toNat ≤ 90 then Char.ofNat (c.toNat + 32) else c

/-- Model of str.lower(), applied to emails by register and login. -/
def str_lower (s : String) : String :=
  ⟨s.data.map lowerChar⟩

/-- PasswordManager.hash_password: bcrypt with a random salt, modelled as a
deterministic tag (the salt is irrelevant to every claim below). -/
def hash_password (password : String) : String :=
  String.append "bcrypt:" password

/-- PasswordManager.verify_password: bcrypt.checkpw, modelled against the
hash_password tag. -/
def verify_password (password hashed : String) : Bool :=
  hashed == hash_password password

/-- Fresh primary key for a newly inserted row (the database assigns
autoincrementing ids, so the new id differs from every existing one). -/
def freshId (db : TokenDb) : Nat :=
  (db.map (fun r => r.id)).foldr max 0 + 1

/-- RefreshTokenManager.create_refresh_token_record: hashes the plaintext,
sets expires_at = now + refresh_ttl, inserts the row and commits. Returns
the refreshed record and the committed table. -/
def create_refresh_token_record (db : TokenDb) (user_id : Nat) (token : String)
    (user_agent ip_address : Option String) (now ttl : Time) :
    RefreshTokenRec × TokenDb :=
  let row : RefreshTokenRec :=
    { id := freshId db
      user_id := user_id
      token_hash := hash_token token
      expires_at := now + ttl
      revoked_at := none
      user_agent := user_agent
      ip_address := ip_address
      created_at := now }
  (row, db ++ [row])

/-- RefreshTokenManager.verify_refresh_token: hash the input, look the hash
up, and return the record only when it exists, is not revoked and is not
expired; each failure collapses to None for the caller. The second component
is the table after the call (the function only queries). -/
def verify_refresh_token (db : TokenDb) (token : String) (now : Time) :
    Option RefreshTokenRec × TokenDb :=
  let h := hash_token token
  match db.find? (fun r => r.token_hash == h) with
  | none => (none, db)
  | some r =>
    if r.is_revoked then (none, db)
    else if r.is_expired now then (none, db)
    else (some r, db)

/-- RefreshTokenManager.revoke_refresh_token: sets revoked_at = now on the
given row and commits at once (db.commit inside the function). -/
def revoke_refresh_token (db : TokenDb) (id : Nat) (now : Time) : TokenDb :=
  db.map (fun r => if r.id = id then { r with revoked_at := some now } else r)

/-- RefreshTokenManager.revoke_all_user_tokens: UPDATE every row with
user_id = uid and revoked_at IS NULL to revoked_at = now, then commit. -/
def revoke_all_user_tokens (db : TokenDb) (user_id : Nat) (now : Time) : TokenDb :=
  db.map (fun r =>
    if r.user_id = user_id ∧ r.revoked_at = none
    then { r with revoked_at := some now } else r)

/-- Status code plus detail (or message) of an HTTP-level reply, covering
both HTTPException and the success response models. -/
structure HttpReply where
  status : Nat
  detail : String
  deriving Repr, DecidableEq

/-! ## src/api/app/routers/auth.py -/

/-- refresh_token handler (POST /api/auth/refresh). The source first
verifies the presented cookie, then revokes the old record — a commit of
its own inside revoke_refresh_token — and only afterwards inserts and
commits the new record. insertOk models whether that second commit
succeeds; when it fails, the raised exception is caught by the handler
(except Exception) and turned into a 500 reply, with the revoke already
durable. -/
def refreshEndpoint (users : List Nat) (db : TokenDb) (cookie : Option String)
    (now : Time) (newTok : String) (user_agent ip_address : Option String)
    (ttl : Time) (insertOk : Bool) : HttpReply × TokenDb :=
  match cookie with
  | none => (⟨401, "Refresh token required"⟩, db)
  | some tok =>
    match verify_refresh_token db tok now with
    | (none, db1) => (⟨401, "Invalid or expired refresh token"⟩, db1)
    | (some record, db1) =>
      if users.contains record.user_id then
        let db2 := revoke_refresh_token db1 record.id now
        if insertOk then
          let db3 := (create_refresh_token_record db2 record.user_id newTok
            user_agent ip_address now ttl).2
          (⟨200, "Token refreshed successfully"⟩, db3)
        else
          (⟨500, "Token refresh failed. Please try again."⟩, db2)
      else
        (⟨401, "User not found"⟩, db1)

/-- logout handler (POST /api/auth/logout). Cookies are cleared, then the
refresh token is revoked when it still verifies; every control path —
missing cookie, unknown or already-revoked token, and the final
except-Exception handler (internalOk = false) included — replies 200
Logout successful. -/
def logout (db : TokenDb) (cookie : Option String) (now : Time)
    (internalOk : Bool) : HttpReply × TokenDb :=
  if internalOk then
    match cookie with
    | none => (⟨200, "Logout successful"⟩, db)
    | some tok =>
      match verify_refresh_token db tok now with
      | (some record, db1) =>
        (⟨200, "Logout successful"⟩, revoke_refresh_token db1 record.id now)
      | (none, db1) => (⟨200, "Logout successful"⟩, db1)
  else
    (⟨200, "Logout successful"⟩, db)

/-! ## src/api/app/rate_limit.py -/

/-- Per-key queue of request timestamps (collections.deque, head = oldest). -/
abbrev RequestQueue := List Time

/-- MemoryRateLimiter.is_allowed: compute window_start = now - window_seconds,
pop timestamps strictly older than window_start off the front, deny when the
queue already holds limit entries (without recording the denied request),
otherwise append now and allow. -/
def is_allowed (requests : RequestQueue) (limit : Nat) (window_seconds : Nat)
    (now : Time) : Bool × RequestQueue :=
  let window_start : Time := now - (window_seconds : Time)
  let requests1 := requests.dropWhile (fun ts => ts < window_start)
  if limit ≤ requests1.length then (false, requests1)
  else (true, requests1 ++ [now])

/-- MemoryRateLimiter._requests: per-key queues (a defaultdict of deques). -/
abbrev LimiterState := List (String × RequestQueue)

/-- Queue held for a key; a missing key reads as the empty deque. -/
def getQueue (st : LimiterState) (key : String) : RequestQueue :=
  match st.find? (fun kv => kv.1 == key) with
  | some kv => kv.2
  | none => []

/-- Store back the queue of one key. -/
def setQueue (st : LimiterState) (key : String) (q : RequestQueue) :
    LimiterState :=
  if st.any (fun kv => kv.1 == key) then
    st.map (fun kv => if kv.1 == key then (key, q) else kv)
  else st ++ [(key, q)]

/-- The limiter applied to the whole keyed state. -/
def limiter_is_allowed (st : LimiterState) (key : String) (limit : Nat)
    (window_seconds : Nat) (now : Time) : Bool × LimiterState :=
  let p := is_allowed (getQueue st key) limit window_seconds now
  (p.1, setQueue st key p.2)

/-- check_rate_limit: derives the key purpose:ip from the client address and
the purpose tag (the key_prefix argument of the source), consults the
limiter, and raises HTTP 429 with a retry hint in the detail when denied. -/
def check_rate_limit (st : LimiterState) (client_ip : String) (limit : Nat)
    (window_seconds : Nat) (now : Time) (purpose : String) :
    Except HttpReply Unit × LimiterState :=
  let key := String.append purpose (String.append ":" client_ip)
  let p := limiter_is_allowed st key limit window_seconds now
  if p.1 then (Except.ok (), p.2)
  else
    (Except.error ⟨429,
      String.append "Rate limit exceeded. Maximum "
        (String.append (toString limit)
          (String.append " requests per "
            (String.append (toString window_seconds) " seconds.")))⟩, p.2)

/-! ## src/api/app/deps.py -/

/-- verify_csrf_protection: the X-Requested-With header must equal
XMLHttpRequest, otherwise HTTP 403 (a missing header reads as None and also
fails the comparison). -/
def verify_csrf_protection (x_requested_with : Option String) :
    Except HttpReply Unit :=
  if x_requested_with ≠ some "XMLHttpRequest" then
    Except.error ⟨403, "CSRF protection required"⟩
  else Except.ok ()

/-- Embedding of the User ORM row, restricted to the fields the claims
touch. -/
structure UserRec where
  id : Nat
  email : String
  password_hash : String
  deriving Repr, DecidableEq

/-- register handler (POST /api/auth/register). FastAPI resolves the
dependencies in declaration order: check_auth_rate_limit runs first —
consuming rate-limit quota and possibly raising 429 — then
verify_csrf_protection, and only then the handler body, which checks for a
duplicate email, hashes the password and inserts the user. -/
def registerEndpoint (users : List UserRec) (st : LimiterState)
    (client_ip : String) (x_requested_with : Option String)
    (email password : String) (now : Time) (rate_limit_auth : Nat) :
    HttpReply × List UserRec × LimiterState :=
  let rl := check_rate_limit st client_ip rate_limit_auth 60 now "auth"
  match rl.1 with
  | Except.error e => (e, users, rl.2)
  | Except.ok _ =>
    match verify_csrf_protection x_requested_with with
    | Except.error e => (e, users, rl.2)
    | Except.ok _ =>
      if users.any (fun u => u.email == str_lower email) then
        (⟨400, "Registration failed. Please check your information and try again."⟩,
          users, rl.2)
      else
        let u : UserRec :=
          { id := users.length + 1
            email := str_lower email
            password_hash := hash_password password }
        (⟨200, "Registration successful"⟩, users ++ [u], rl.2)

/-- login handler (POST /api/auth/login): rate limit, then CSRF header, then
the credential check (a dummy bcrypt comparison runs when the user is
unknown, which has no observable effect here); on success a refresh-token
row is persisted and cookies are set. The success reply carries the
AuthResponse body, abstracted to its status. -/
def loginEndpoint (users : List UserRec) (db : TokenDb) (st : LimiterState)
    (client_ip : String) (x_requested_with : Option String)
    (email password : String) (newTok : String) (user_agent : Option String)
    (now ttl : Time) (rate_limit_auth : Nat) :
    HttpReply × TokenDb × LimiterState :=
  let rl := check_rate_limit st client_ip rate_limit_auth 60 now "auth"
  match rl.1 with
  | Except.error e => (e, db, rl.2)
  | Except.ok _ =>
    match verify_csrf_protection x_requested_with with
    | Except.error e => (e, db, rl.2)
    | Except.ok _ =>
      match users.find? (fun u => u.email == str_lower email) with
      | none => (⟨401, "Invalid credentials"⟩, db, rl.2)
      | some u =>
        if verify_password password u.password_hash then
          (⟨200, "AuthResponse"⟩,
            (create_refresh_token_record db u.id newTok user_agent
              (some client_ip) now ttl).2, rl.2)
        else
          (⟨401, "Invalid credentials"⟩, db, rl.2)

/-! ## JWT model shared by src/api/app/security.py and
src/backend/apps/api_gateway/middleware/auth.py -/

/-- Claim set carried by a token (the decoded payload dict), restricted to
the claims the code reads. -/
structure JwtPayload where
  sub : Option String
  type : Option String
  email : Option String
  roles : List String
  exp : Time
  deriving Repr, DecidableEq

/-- A serialized JWT: either not a well-formed signed token at all, or a
payload signed with some key. -/
inductive Jwt where
  | malformed
  | signed (payload : JwtPayload) (key : String)
  deriving Repr, DecidableEq

/-- Errors PyJWT raises from jwt.decode. -/
inductive JwtError where
  | expiredSignatureError
  | invalidTokenError
  deriving Repr, DecidableEq

/-- jwt.decode(token, secret, algorithms=[...]) with default options:
signature verification against the server secret plus the exp claim check
(PyJWT treats exp ≤ now as expired); a malformed token or a wrong signature
raises InvalidTokenError. -/
def jwtDecode (tok : Jwt) (secret : String) (now : Time) :
    Except JwtError JwtPayload :=
  match tok with
  | Jwt.malformed => Except.error JwtError.invalidTokenError
  | Jwt.signed payload key =>
    if key ≠ secret then Except.error JwtError.invalidTokenError
    else if payload.exp ≤ now then Except.error JwtError.expiredSignatureError
    else Except.ok payload

/-- JWTManager.verify_access_token (src/api/app/security.py): decode, then
require the type claim to equal access; every failure is an HTTP 401 with a
failure-specific detail. -/
def verify_access_token (tok : Jwt) (secret : String) (now : Time) :
    Except HttpReply JwtPayload :=
  match jwtDecode tok secret now with
  | Except.ok payload =>
    if payload.type ≠ some "access" then
      Except.error ⟨401, "Invalid token type"⟩
    else Except.ok payload
  | Except.error JwtError.expiredSignatureError =>
    Except.error ⟨401, "Token has expired"⟩
  | Except.error JwtError.invalidTokenError =>
    Except.error ⟨401, "Invalid token"⟩

/-! ## src/backend/apps/api_gateway/middleware/auth.py -/

/-- Request as seen by the gateway middleware. The bearer field holds the
token parsed out of an Authorization header of the form Bearer token, and
cookie_access_token the access_token cookie, already at the token level. -/
structure GwRequest where
  path : String
  method : String
  bearer : Option Jwt
  cookie_access_token : Option Jwt
  deriving Repr, DecidableEq

/-- Whether the first list starts with the second, character by character. -/
def charsStartWith : List Char → List Char → Bool
  | _, [] => true
  | [], _ :: _ => false
  | c :: cs, d :: ds => c == d && charsStartWith cs ds

/-- Model of str.startswith, used for the path-family skips. -/
def strStartsWith (s p : String) : Bool :=
  charsStartWith s.data p.data

/-- AuthMiddleware.SKIP_PATHS. -/
def SKIP_PATHS : List String :=
  ["/", "/health", "/metrics", "/api/v1/docs", "/api/v1/redoc",
   "/api/v1/openapi.json", "/api/v1/auth/login", "/api/v1/auth/register",
   "/api/v1/auth/refresh"]

/-- AuthMiddleware._should_skip_auth: static skip list, health and metrics
path families, and CORS preflight. -/
def should_skip_auth (req : GwRequest) : Bool :=
  SKIP_PATHS.contains req.path
  || strStartsWith req.path "/health"
  || strStartsWith req.path "/metrics"
  || strStartsWith req.path "/.well-known"
  || req.method == "OPTIONS"

/-- AuthMiddleware._extract_token: Authorization bearer first, the
access_token cookie second. -/
def extract_token (req : GwRequest) : Option Jwt :=
  match req.bearer with
  | some tok => some tok
  | none => req.cookie_access_token

/-- AuthMiddleware._verify_token: decode and require a truthy sub claim; no
check of the type claim is performed, and every failure reads as None. -/
def gw_verify_token (tok : Jwt) (secret : String) (now : Time) :
    Option JwtPayload :=
  match jwtDecode tok secret now with
  | Except.ok payload =>
    match payload.sub with
    | none => none
    | some s => if s == "" then none else some payload
  | Except.error _ => none

/-- Identity attached to request.state by the middleware on success. -/
structure AuthState where
  user_id : Option String
  user_email : Option String
  user_roles : List String
  deriving Repr, DecidableEq

/-- Outcome of the middleware: the request is forwarded to call_next, with
the attached identity when one was verified, or answered directly with a
401 JSON body. -/
inductive GwOutcome where
  | forwarded (state : Option AuthState)
  | unauthorized (status : Nat) (message : String)
  deriving Repr, DecidableEq

/-- AuthMiddleware.dispatch: skip-listed requests pass through untouched;
otherwise a missing token, or any verification failure, is answered with
the 401 response of _unauthorized_response. -/
def dispatch (req : GwRequest) (secret : String) (now : Time) : GwOutcome :=
  if should_skip_auth req then GwOutcome.forwarded none
  else
    match extract_token req with
    | none => GwOutcome.unauthorized 401 "Missing authorization token"
    | some tok =>
      match gw_verify_token tok secret now with
      | none => GwOutcome.unauthorized 401 "Invalid or expired token"
      | some payload =>
        GwOutcome.forwarded (some ⟨payload.sub, payload.email, payload.roles⟩)

/-! ## src/backend/apps/api_gateway/services/proxy.py -/

/-- What the downstream service does for one forwarded request: an HTTP
response with some status and body text, a connection-level failure raising
aiohttp.ClientError, or any other exception. -/
inductive Downstream where
  | httpResponse (status : Nat) (body : String)
  | clientError
  | otherFailure
  deriving Repr, DecidableEq

/-- Python exception values that can escape the try block of
forward_request, by the class the except clauses discriminate on. -/
inductive PyExc where
  | httpException (status : Nat) (detail : String)
  | aiohttpClientError
  | otherException
  deriving Repr, DecidableEq

/-- Whether except aiohttp.ClientError matches the exception; HTTPException
and the other exceptions fall through to except Exception. -/
def PyExc.isClientError : PyExc → Bool
  | PyExc.aiohttpClientError => true
  | _ => false

/-- Body of the try block of ServiceProxy.forward_request: performs the
request and, when the downstream answers with status ≥ 400, raises
HTTPException carrying that same status and a detail embedding the
downstream error text. -/
def forwardTryBlock (service : String) (outcome : Downstream) :
    Except PyExc String :=
  match outcome with
  | Downstream.clientError => Except.error PyExc.aiohttpClientError
  | Downstream.otherFailure => Except.error PyExc.otherException
  | Downstream.httpResponse status body =>
    if 400 ≤ status then
      Except.error (PyExc.httpException status
        (String.append (String.append (String.append "Service " service)
          " returned error: ") body))
    else Except.ok body

/-- ServiceProxy.forward_request: an unknown service name raises 404 before
the try block; a raised aiohttp.ClientError becomes 503 service
unavailable; every other exception escaping the try block — the
status-propagating HTTPException from the ≥ 400 branch included, since
HTTPException is an Exception and there is no except-HTTPException
re-raise here — is caught by except Exception and replaced by 500
Internal service error. -/
def forward_request (registry : List (String × String)) (service : String)
    (outcome : Downstream) : Except HttpReply String :=
  if ¬ registry.any (fun kv => kv.1 == service) then
    Except.error ⟨404,
      String.append (String.append "Service " service) " not found"⟩
  else
    match forwardTryBlock service outcome with
    | Except.ok body => Except.ok body
    | Except.error e =>
      if e.isClientError then
        Except.error ⟨503,
          String.append (String.append "Service " service) " unavailable"⟩
      else
        Except.error ⟨500, "Internal service error"⟩

/-! ## Helper lemmas -/

/-- Characterization of a successful refresh-token verification: the hash
lookup hits the record, the record is not revoked, and now is at most
expires_at. -/
theorem verify_fst_eq_some_iff (db : TokenDb) (tok : String) (now : Time)
    (r : RefreshTokenRec) :
    (verify_refresh_token db tok now).1 = some r ↔
      db.find? (fun x => x.token_hash == hash_token tok) = some r ∧
      r.revoked_at = none ∧ now ≤ r.expires_at := by
  unfold verify_refresh_token
  cases hf : db.find? (fun x => x.token_hash == hash_token tok) with
  | none =>
    simp only [hf]
    constructor
    · intro h
      simp at h
    · rintro ⟨h, -, -⟩
      simp at h
  | some a =>
    simp only [hf]
    by_cases h1 : a.revoked_at = none
    · have hb1 : a.is_revoked = false := by
        simp [RefreshTokenRec.is_revoked, h1]
      by_cases h2 : now ≤ a.expires_at
      · have hb2 : a.is_expired now = false := by
          simp only [RefreshTokenRec.is_expired, decide_eq_false_iff_not, not_lt]
          exact h2
        simp only [hb1, hb2, Bool.false_eq_true, if_false]
        constructor
        · intro h
          simp only [Option.some.injEq] at h
          subst h
          exact ⟨rfl, h1, h2⟩
        · rintro ⟨h, -, -⟩
          simp only [Option.some.injEq] at h
          subst h
          rfl
      · have hb2 : a.is_expired now = true := by
          simp only [RefreshTokenRec.is_expired, decide_eq_true_eq]
          exact lt_of_not_le h2
        simp only [hb1, hb2, Bool.false_eq_true, if_false, if_true]
        constructor
        · intro h
          simp at h
        · rintro ⟨h, -, h3⟩
          simp only [Option.some.injEq] at h
          subst h
          exact absurd h3 h2
    · have hb1 : a.is_revoked = true := by
        simp [RefreshTokenRec.is_revoked, Option.isSome_iff_ne_none, h1]
      simp only [hb1, if_true]
      constructor
      · intro h
        simp at h
      · rintro ⟨h, h2, -⟩
        simp only [Option.some.injEq] at h
        subst h
        exact absurd h2 h1

/-- Verification never changes the table: the session state it returns is
the one it was given. -/
theorem verify_snd_eq (db : TokenDb) (tok : String) (now : Time) :
    (verify_refresh_token db tok now).2 = db := by
  unfold verify_refresh_token
  cases hf : db.find? (fun x => x.token_hash == hash_token tok) with
  | none => simp [hf]
  | some a =>
    by_cases h1 : a.is_revoked <;> by_cases h2 : a.is_expired now <;>
      simp [hf, h1, h2]

/-- A miss of the hash lookup makes verification fail. -/
theorem verify_eq_none_of_find_none (db : TokenDb) (tok : String) (now : Time)
    (h : db.find? (fun x => x.token_hash == hash_token tok) = none) :
    verify_refresh_token db tok now = (none, db) := by
  unfold verify_refresh_token
  simp only [h]

/-- A revoked record makes verification fail. -/
theorem verify_eq_none_of_revoked (db : TokenDb) (tok : String) (now : Time)
    (r : RefreshTokenRec)
    (h : db.find? (fun x => x.token_hash == hash_token tok) = some r)
    (hr : r.revoked_at ≠ none) :
    verify_refresh_token db tok now = (none, db) := by
  unfold verify_refresh_token
  simp only [h]
  have h1 : r.is_revoked = true := by
    simp [RefreshTokenRec.is_revoked, Option.isSome_iff_ne_none, hr]
  simp [h1]

/-- find? skips over a block in which no element satisfies the test. -/
theorem find?_append_of_none {α : Type} (p : α → Bool) (l1 l2 : List α)
    (h : l1.find? p = none) : (l1 ++ l2).find? p = l2.find? p := by
  induction l1 with
  | nil => rfl
  | cons a l ih =>
    cases hp : p a with
    | true => simp [List.find?, hp] at h
    | false =>
      simp only [List.find?, hp] at h
      simp only [List.cons_append, List.find?, hp]
      exact ih h

/-! ## Claim C1 -/

/-- Claim C1: the source violates the stated rotation atomicity. With one
valid refresh token stored for user 7, a rotation whose new-token insert
fails replies 500 and leaves the old token revoked — revoke_refresh_token
committed on its own before create_refresh_token_record ran — so the
session is left with zero valid refresh tokens (the old token no longer
verifies), contradicting the requirement that the old token remain valid
when persisting the new one fails. -/
theorem c1_rotation_partial_failure_locks_out :
    refreshEndpoint [7]
        [{ id := 1, user_id := 7, token_hash := hash_token "tokA",
           expires_at := 1000, revoked_at := none, user_agent := none,
           ip_address := none, created_at := 0 }]
        (some "tokA") 5 "tokB" none none 604800 false =
      (⟨500, "Token refresh failed. Please try again."⟩,
       [{ id := 1, user_id := 7, token_hash := hash_token "tokA",
          expires_at := 1000, revoked_at := some 5, user_agent := none,
          ip_address := none, created_at := 0 }]) ∧
    (verify_refresh_token
        [{ id := 1, user_id := 7, token_hash := hash_token "tokA",
           expires_at := 1000, revoked_at := some 5, user_agent := none,
           ip_address := none, created_at := 0 }] "tokA" 6).1 = none := by
  exact ⟨by decide, by decide⟩

/-! ## Claim C2 -/

/-- Claim C2 (counterexample): a non-revoked token whose expires_at is
exactly the verification instant still verifies successfully, refuting the
claim that verification fails at now = expires_at (the source tests
now > expires_at, so validity is inclusive at the boundary). -/
theorem c2_boundary_counterexample :
    (verify_refresh_token
        [{ id := 1, user_id := 7, token_hash := hash_token "tokA",
           expires_at := 100, revoked_at := none, user_agent := none,
           ip_address := none, created_at := 0 }] "tokA" 100).1 =
      some { id := 1, user_id := 7, token_hash := hash_token "tokA",
             expires_at := 100, revoked_at := none, user_agent := none,
             ip_address := none, created_at := 0 } := by
  decide

/-- Claim C2 (amended): the refresh token the hash lookup returns verifies
successfully iff revoked_at is null and now ≤ expires_at; expiry uses
strict now > expires_at, so at the instant now = expires_at verification
still succeeds. -/
theorem c2_validity_boundary (db : TokenDb) (tok : String) (now : Time)
    (r : RefreshTokenRec)
    (hf : db.find? (fun x => x.token_hash == hash_token tok) = some r) :
    (verify_refresh_token db tok now).1 = some r ↔
      r.revoked_at = none ∧ now ≤ r.expires_at := by
  rw [verify_fst_eq_some_iff]
  simp [hf]

/-- Witness for claim C2 at a concrete token and instant. -/
theorem c2_validity_boundary_witness :
    (verify_refresh_token
        [{ id := 1, user_id := 7, token_hash := hash_token "tokA",
           expires_at := 100, revoked_at := none, user_agent := none,
           ip_address := none, created_at := 0 }] "tokA" 60).1 =
      some { id := 1, user_id := 7, token_hash := hash_token "tokA",
             expires_at := 100, revoked_at := none, user_agent := none,
             ip_address := none, created_at := 0 } :=
  (c2_validity_boundary
    [{ id := 1, user_id := 7, token_hash := hash_token "tokA",
       expires_at := 100, revoked_at := none, user_agent := none,
       ip_address := none, created_at := 0 }] "tokA" 60
    { id := 1, user_id := 7, token_hash := hash_token "tokA",
      expires_at := 100, revoked_at := none, user_agent := none,
      ip_address := none, created_at := 0 } (by decide)).mpr (by decide)

/-! ## Claim C3 -/

/-- Claim C3: after revoke_all_user_tokens for a user, every row of that
user has revoked_at set, every row of any other user is still present
unmodified, and any record a subsequent verification returns belongs to
another user (so verification fails for all of the revoked user tokens). -/
theorem c3_revoke_all_user_tokens_spec (db : TokenDb) (uid : Nat) (t : Time) :
    (∀ r, r ∈ revoke_all_user_tokens db uid t → r.user_id = uid →
       r.revoked_at ≠ none) ∧
    (∀ r, r ∈ db → r.user_id ≠ uid → r ∈ revoke_all_user_tokens db uid t) ∧
    (∀ (tok : String) (t2 : Time) (r : RefreshTokenRec),
       (verify_refresh_token (revoke_all_user_tokens db uid t) tok t2).1 =
         some r → r.user_id ≠ uid) := by
  have part1 : ∀ r, r ∈ revoke_all_user_tokens db uid t → r.user_id = uid →
      r.revoked_at ≠ none := by
    intro r hr hu
    unfold revoke_all_user_tokens at hr
    rcases List.mem_map.mp hr with ⟨a, ha, hfa⟩
    by_cases hc : a.user_id = uid ∧ a.revoked_at = none
    · rw [if_pos hc] at hfa
      cases hfa
      simp
    · rw [if_neg hc] at hfa
      cases hfa
      intro hnone
      exact hc ⟨hu, hnone⟩
  refine ⟨part1, ?_, ?_⟩
  · intro r hr hu
    unfold revoke_all_user_tokens
    have hfix : (if r.user_id = uid ∧ r.revoked_at = none
        then { r with revoked_at := some t } else r) = r := by
      rw [if_neg]
      rintro ⟨h1, -⟩
      exact hu h1
    exact List.mem_map.mpr ⟨r, hr, hfix⟩
  · intro tok t2 r hv hu
    rcases (verify_fst_eq_some_iff _ tok t2 r).mp hv with ⟨hfind, hnone, -⟩
    exact part1 r (List.mem_of_find?_eq_some hfind) hu hnone

/-- Witness for claim C3: a concrete two-user table in which the revoked
user token stops verifying and the other user row survives untouched. -/
theorem c3_revoke_all_user_tokens_witness :
    ({ id := 2, user_id := 9, token_hash := hash_token "tokB",
       expires_at := 1000, revoked_at := none, user_agent := none,
       ip_address := none, created_at := 0 } : RefreshTokenRec) ∈
      revoke_all_user_tokens
        [{ id := 1, user_id := 7, token_hash := hash_token "tokA",
           expires_at := 1000, revoked_at := none, user_agent := none,
           ip_address := none, created_at := 0 },
         { id := 2, user_id := 9, token_hash := hash_token "tokB",
           expires_at := 1000, revoked_at := none, user_agent := none,
           ip_address := none, created_at := 0 }] 7 50 :=
  (c3_revoke_all_user_tokens_spec
    [{ id := 1, user_id := 7, token_hash := hash_token "tokA",
       expires_at := 1000, revoked_at := none, user_agent := none,
       ip_address := none, created_at := 0 },
     { id := 2, user_id := 9, token_hash := hash_token "tokB",
       expires_at := 1000, revoked_at := none, user_agent := none,
       ip_address := none, created_at := 0 }] 7 50).2.1
    { id := 2, user_id := 9, token_hash := hash_token "tokB",
      expires_at := 1000, revoked_at := none, user_agent := none,
      ip_address := none, created_at := 0 } (by decide) (by decide)

/-! ## Claim C7 -/

/-- Claim C7: persisting a refresh token and then verifying the same
plaintext — before expiry, with no intervening revocation, and with no
stored row already carrying the same hash — returns a record whose user id
equals the one given to persist. -/
theorem c7_persist_verify_roundtrip (db : TokenDb) (uid : Nat) (tok : String)
    (ua ip : Option String) (tP ttl tV : Time)
    (hfresh : ∀ r, r ∈ db → r.token_hash ≠ hash_token tok)
    (hexp : tV ≤ tP + ttl) :
    ∃ row,
      (verify_refresh_token
        (create_refresh_token_record db uid tok ua ip tP ttl).2 tok tV).1 =
        some row ∧ row.user_id = uid := by
  have hnone : db.find? (fun x => x.token_hash == hash_token tok) = none := by
    rw [List.find?_eq_none]
    intro x hx
    simp only [beq_iff_eq]
    exact hfresh x hx
  refine ⟨(create_refresh_token_record db uid tok ua ip tP ttl).1, ?_, rfl⟩
  rw [verify_fst_eq_some_iff]
  refine ⟨?_, rfl, hexp⟩
  simp only [create_refresh_token_record]
  rw [find?_append_of_none _ _ _ hnone]
  simp [List.find?]

/-- Witness for claim C7 on an empty table. -/
theorem c7_persist_verify_roundtrip_witness :
    ∃ row,
      (verify_refresh_token
        (create_refresh_token_record [] 7 "rt" none none 0 604800).2
        "rt" 3600).1 = some row ∧ row.user_id = 7 :=
  c7_persist_verify_roundtrip [] 7 "rt" none none 0 604800 3600
    (by intro r hr; simp at hr) (by decide)

/-! ## Claim C9 -/

/-- Claim C9: refresh-token verification is read-only — the table it
returns is the one it was given — and replaying a revoked token through
the refresh endpoint is answered with the same generic 401 reply and
unchanged table as presenting an unknown token, so no reuse-detection
revocation of other tokens takes place. -/
theorem c9_verify_readonly_and_generic (db : TokenDb) (tok : String)
    (now : Time) (users : List Nat) (newTok : String)
    (ua ip : Option String) (ttl : Time) (insertOk : Bool) :
    (verify_refresh_token db tok now).2 = db ∧
    (∀ r, db.find? (fun x => x.token_hash == hash_token tok) = some r →
       r.revoked_at ≠ none →
       refreshEndpoint users db (some tok) now newTok ua ip ttl insertOk =
         (⟨401, "Invalid or expired refresh token"⟩, db)) ∧
    (db.find? (fun x => x.token_hash == hash_token tok) = none →
       refreshEndpoint users db (some tok) now newTok ua ip ttl insertOk =
         (⟨401, "Invalid or expired refresh token"⟩, db)) := by
  refine ⟨verify_snd_eq db tok now, ?_, ?_⟩
  · intro r hf hrev
    have hv := verify_eq_none_of_revoked db tok now r hf hrev
    simp only [refreshEndpoint, hv]
  · intro hf
    have hv := verify_eq_none_of_find_none db tok now hf
    simp only [refreshEndpoint, hv]

/-- Witness for claim C9: replaying a concrete revoked token leaves the
table unchanged and yields the generic 401. -/
theorem c9_verify_readonly_witness :
    refreshEndpoint [7]
        [{ id := 1, user_id := 7, token_hash := hash_token "tokA",
           expires_at := 1000, revoked_at := some 2, user_agent := none,
           ip_address := none, created_at := 0 }]
        (some "tokA") 5 "tokB" none none 604800 true =
      (⟨401, "Invalid or expired refresh token"⟩,
       [{ id := 1, user_id := 7, token_hash := hash_token "tokA",
          expires_at := 1000, revoked_at := some 2, user_agent := none,
          ip_address := none, created_at := 0 }]) :=
  (c9_verify_readonly_and_generic
    [{ id := 1, user_id := 7, token_hash := hash_token "tokA",
       expires_at := 1000, revoked_at := some 2, user_agent := none,
       ip_address := none, created_at := 0 }]
    "tokA" 5 [7] "tokB" none none 604800 true).2.1
    { id := 1, user_id := 7, token_hash := hash_token "tokA",
      expires_at := 1000, revoked_at := some 2, user_agent := none,
      ip_address := none, created_at := 0 } (by decide) (by decide)

/-! ## Claim C4 -/

/-- dropWhile leaves a constant block alone when its head fails the test. -/
theorem dropWhile_replicate_of_neg {α : Type} (p : α → Bool) (a : α) (n : Nat)
    (h : p a = false) :
    (List.replicate n a).dropWhile p = List.replicate n a := by
  cases n with
  | zero => rfl
  | succ m => simp [List.replicate_succ, List.dropWhile, h]

/-- dropWhile empties a constant block whose element passes the test. -/
theorem dropWhile_replicate_of_pos {α : Type} (p : α → Bool) (a : α) (n : Nat)
    (h : p a = true) : (List.replicate n a).dropWhile p = [] := by
  induction n with
  | zero => rfl
  | succ m ih => simp [List.replicate_succ, List.dropWhile, h, ih]

/-- Claim C4: with limit 10 and a 60-second window, each of 10 requests
from one key at the same instant is allowed (the queue growing by one each
time, so all 10 pass), the 11th at that instant is denied — and a denied
limiter verdict makes check_rate_limit answer HTTP 429 — while a request
from the same key strictly after the window has elapsed is allowed
again. -/
theorem c4_sliding_window_rate_limit :
    (∀ (t : Time) (n : Nat), n < 10 →
       is_allowed (List.replicate n t) 10 60 t =
         (true, List.replicate (n + 1) t)) ∧
    (∀ t : Time,
       is_allowed (List.replicate 10 t) 10 60 t =
         (false, List.replicate 10 t)) ∧
    (∀ (st : LimiterState) (ip purpose : String) (limit ws : Nat) (t : Time),
       (limiter_is_allowed st
           (String.append purpose (String.append ":" ip)) limit ws t).1 =
         false →
       ∃ msg, (check_rate_limit st ip limit ws t purpose).1 =
         Except.error ⟨429, msg⟩) ∧
    (∀ (t tL : Time), t + 60 < tL →
       (is_allowed (List.replicate 10 t) 10 60 tL).1 = true) := by
  have hsame : ∀ (t : Time),
      (List.replicate 10 t).dropWhile (fun ts => decide (ts < t - (60:Nat))) =
        List.replicate 10 t := by
    intro t
    apply dropWhile_replicate_of_neg
    simp only [decide_eq_false_iff_not, not_lt]
    push_cast
    linarith
  refine ⟨?_, ?_, ?_, ?_⟩
  · intro t n hn
    unfold is_allowed
    have hd : (List.replicate n t).dropWhile
        (fun ts => decide (ts < t - (60:Nat))) = List.replicate n t := by
      apply dropWhile_replicate_of_neg
      simp only [decide_eq_false_iff_not, not_lt]
      push_cast
      linarith
    have hcond : ¬ (10 ≤ n) := by omega
    simp only [hd, List.length_replicate]
    rw [if_neg hcond, List.replicate_succ']
  · intro t
    unfold is_allowed
    simp only [hsame, List.length_replicate]
    rw [if_pos (le_refl 10)]
  · intro st ip purpose limit ws t h
    unfold check_rate_limit
    simp only [h, Bool.false_eq_true, if_false]
    exact ⟨_, rfl⟩
  · intro t tL h
    unfold is_allowed
    have hd : (List.replicate 10 t).dropWhile
        (fun ts => decide (ts < tL - (60:Nat))) = [] := by
      apply dropWhile_replicate_of_pos
      simp only [decide_eq_true_eq]
      push_cast
      linarith
    have hcond : ¬ ((10:Nat) ≤ 0) := by omega
    simp only [hd, List.length_nil]
    rw [if_neg hcond]

/-- Witness for claim C4 at concrete instants: the 4th request at the same
instant passes, the 11th is denied, check_rate_limit replies 429 on a full
key, and after 61 seconds the key is admitted again. -/
theorem c4_sliding_window_rate_limit_witness :
    is_allowed (List.replicate 3 (0 : Time)) 10 60 0 =
      (true, List.replicate 4 (0 : Time)) ∧
    is_allowed (List.replicate 10 (5 : Time)) 10 60 5 =
      (false, List.replicate 10 (5 : Time)) ∧
    (∃ msg,
      (check_rate_limit [("auth:1.2.3.4", List.replicate 10 (0 : Time))]
          "1.2.3.4" 10 60 0 "auth").1 = Except.error ⟨429, msg⟩) ∧
    (is_allowed (List.replicate 10 (0 : Time)) 10 60 61).1 = true :=
  ⟨c4_sliding_window_rate_limit.1 0 3 (by decide),
   c4_sliding_window_rate_limit.2.1 5,
   c4_sliding_window_rate_limit.2.2.1
     [("auth:1.2.3.4", List.replicate 10 (0 : Time))] "1.2.3.4" "auth"
     10 60 0 (by decide),
   c4_sliding_window_rate_limit.2.2.2 0 61 (by decide)⟩

/-! ## Claim C5 -/

/-- The middleware verifier accepts a token signed with the server secret,
unexpired, and carrying a non-empty sub claim. -/
theorem gw_verify_token_eq_some (payload : JwtPayload) (secret : String)
    (now : Time) (s : String) (hexp : now < payload.exp)
    (hs : payload.sub = some s) (hne : s ≠ "") :
    gw_verify_token (Jwt.signed payload secret) secret now = some payload := by
  have hle : ¬ (payload.exp ≤ now) := not_le.mpr hexp
  simp [gw_verify_token, jwtDecode, hle, hs, hne]

/-- The middleware verifier rejects a wrong signature, an expired token, and
a missing or empty sub claim. -/
theorem gw_verify_token_eq_none (payload : JwtPayload) (key secret : String)
    (now : Time)
    (h : key ≠ secret ∨ payload.exp ≤ now ∨ payload.sub = none ∨
      payload.sub = some "") :
    gw_verify_token (Jwt.signed payload key) secret now = none := by
  by_cases hk : key = secret
  · subst hk
    by_cases he : payload.exp ≤ now
    · simp [gw_verify_token, jwtDecode, he]
    · rcases h with h | h | h | h
      · exact absurd rfl h
      · exact absurd h he
      · simp [gw_verify_token, jwtDecode, he, h]
      · simp [gw_verify_token, jwtDecode, he, h]
  · simp [gw_verify_token, jwtDecode, hk]

/-- Claim C5 (counterexample): the gateway middleware forwards a request
bearing a validly signed, unexpired token whose type claim is refresh, not
access — AuthMiddleware._verify_token never inspects the type claim —
refuting the claim that the gate accepts only access-type tokens. -/
theorem c5_gateway_accepts_nonaccess_token :
    dispatch
        { path := "/api/v1/datasets", method := "GET",
          bearer := some (Jwt.signed
            { sub := some "1", type := some "refresh", email := none,
              roles := [], exp := 100 } "s3cret"),
          cookie_access_token := none } "s3cret" 0 =
      GwOutcome.forwarded (some ⟨some "1", none, []⟩) := by
  decide

/-- Claim C5 (amended): outside the skip list the gateway accepts a bearer
token exactly when its signature verifies against the server secret, it is
unexpired, and it carries a non-empty sub claim — the type claim is not
inspected by the middleware — attaching the verified subject and claims to
request state on success; a missing token or any verification failure is
answered with a generic 401. The type = access check is enforced only by
the api application dependency verify_access_token, which rejects any
other type claim. -/
theorem c5_gate_verification (req : GwRequest) (secret : String) (now : Time)
    (payload : JwtPayload) (key : String)
    (hskip : should_skip_auth req = false) :
    (extract_token req = none →
       dispatch req secret now =
         GwOutcome.unauthorized 401 "Missing authorization token") ∧
    (extract_token req = some Jwt.malformed →
       dispatch req secret now =
         GwOutcome.unauthorized 401 "Invalid or expired token") ∧
    (extract_token req = some (Jwt.signed payload key) →
       (key = secret → now < payload.exp →
          (∃ s, payload.sub = some s ∧ s ≠ "") →
          dispatch req secret now =
            GwOutcome.forwarded
              (some ⟨payload.sub, payload.email, payload.roles⟩)) ∧
       ((key ≠ secret ∨ payload.exp ≤ now ∨ payload.sub = none ∨
           payload.sub = some "") →
          dispatch req secret now =
            GwOutcome.unauthorized 401 "Invalid or expired token")) ∧
    (payload.type ≠ some "access" →
       (verify_access_token (Jwt.signed payload key) secret now).isOk =
         false) := by
  refine ⟨?_, ?_, ?_, ?_⟩
  · intro he
    unfold dispatch
    rw [hskip]
    simp only [Bool.false_eq_true, if_false, he]
  · intro he
    unfold dispatch
    rw [hskip]
    simp only [Bool.false_eq_true, if_false, he]
    rfl
  · intro he
    constructor
    · rintro hkey hexp ⟨s, hs, hne⟩
      subst hkey
      unfold dispatch
      rw [hskip]
      simp only [Bool.false_eq_true, if_false, he,
        gw_verify_token_eq_some payload key now s hexp hs hne]
    · intro hbad
      unfold dispatch
      rw [hskip]
      simp only [Bool.false_eq_true, if_false, he,
        gw_verify_token_eq_none payload key secret now hbad]
  · intro ht
    by_cases hk : key = secret
    · subst hk
      by_cases he2 : payload.exp ≤ now
      · simp [verify_access_token, jwtDecode, Except.isOk, Except.toBool, he2]
      · simp [verify_access_token, jwtDecode, Except.isOk, Except.toBool, he2, ht]
    · simp [verify_access_token, jwtDecode, Except.isOk, Except.toBool, hk]

/-- Witness for claim C5: a concrete access token signed with the right
secret passes the gate and the subject lands in request state. -/
theorem c5_gate_verification_witness :
    dispatch
        { path := "/api/v1/datasets", method := "GET",
          bearer := some (Jwt.signed
            { sub := some "1", type := some "access", email := none,
              roles := [], exp := 100 } "topsecret"),
          cookie_access_token := none } "topsecret" 0 =
      GwOutcome.forwarded (some ⟨some "1", none, []⟩) :=
  ((c5_gate_verification
      { path := "/api/v1/datasets", method := "GET",
        bearer := some (Jwt.signed
          { sub := some "1", type := some "access", email := none,
            roles := [], exp := 100 } "topsecret"),
        cookie_access_token := none } "topsecret" 0
      { sub := some "1", type := some "access", email := none,
        roles := [], exp := 100 } "topsecret"
      (by decide)).2.2.1 rfl).1 rfl (by decide) ⟨"1", rfl, by decide⟩

/-! ## Claim C6 -/

/-- Claim C6: the code violates the stated forwarding error taxonomy. An
unregistered service name does yield 404 and a connection failure does
yield 503, but a downstream 4xx/5xx response is NOT propagated: the
HTTPException carrying the downstream status is caught by the except
Exception clause and replaced by a 500 Internal service error, masking the
downstream status and message. -/
theorem c6_forward_request_error_taxonomy :
    forward_request [] "data" (Downstream.httpResponse 200 "ok") =
      Except.error ⟨404, "Service data not found"⟩ ∧
    forward_request [("data", "http://data:8001")] "data"
        Downstream.clientError =
      Except.error ⟨503, "Service data unavailable"⟩ ∧
    forward_request [("data", "http://data:8001")] "data"
        (Downstream.httpResponse 502 "upstream exploded") =
      Except.error ⟨500, "Internal service error"⟩ :=
  ⟨rfl, rfl, rfl⟩

/-! ## Claim C8 -/

/-- Claim C8: logout replies 200 Logout successful for every table and
cookie state — absent, unknown, expired, revoked or valid token, and the
internal-failure path included — and calling it twice with the same cookie
replies 200 both times, never 500. -/
theorem c8_logout_idempotent (db : TokenDb) (cookie : Option String)
    (now : Time) (internalOk : Bool) :
    (logout db cookie now internalOk).1 = ⟨200, "Logout successful"⟩ ∧
    (logout (logout db cookie now internalOk).2 cookie now true).1 =
      ⟨200, "Logout successful"⟩ := by
  have h : ∀ (d : TokenDb) (c : Option String) (t : Time) (ok : Bool),
      (logout d c t ok).1 = ⟨200, "Logout successful"⟩ := by
    intro d c t ok
    cases ok with
    | false => rfl
    | true =>
      cases c with
      | none => rfl
      | some tok =>
        unfold logout
        rcases h2 : verify_refresh_token d tok t with ⟨o, d2⟩
        cases o <;> simp [h2]
  exact ⟨h db cookie now internalOk, h _ cookie now true⟩

/-! ## Claim C10 -/

/-- Claim C10 (counterexample): a register request lacking the
X-Requested-With header but arriving from a key already at its rate limit
is rejected with 429, not the claimed 403 — FastAPI resolves the
check_auth_rate_limit dependency before verify_csrf_protection. -/
theorem c10_ratelimit_precedes_csrf :
    (registerEndpoint [] [("auth:9.9.9.9", List.replicate 10 (0 : Time))]
        "9.9.9.9" none "a@b.com" "pw" 0 10).1.status = 429 ∧
    (registerEndpoint [] [("auth:9.9.9.9", List.replicate 10 (0 : Time))]
        "9.9.9.9" none "a@b.com" "pw" 0 10).1.status ≠ 403 := by
  exact ⟨by decide, by decide⟩

/-- Claim C10 (amended): each register or login request that the auth rate
limiter admits and that lacks the exact header X-Requested-With:
XMLHttpRequest is rejected with the 403 CSRF error before any credential
processing or credential-state change — the user table and token table are
returned unchanged. -/
theorem c10_csrf_gate (users : List UserRec) (db : TokenDb)
    (st : LimiterState) (ip : String) (hdr : Option String)
    (email password newTok : String) (ua : Option String)
    (now ttl : Time) (limit : Nat)
    (hhdr : hdr ≠ some "XMLHttpRequest")
    (hrl : (check_rate_limit st ip limit 60 now "auth").1 = Except.ok ()) :
    registerEndpoint users st ip hdr email password now limit =
      (⟨403, "CSRF protection required"⟩, users,
        (check_rate_limit st ip limit 60 now "auth").2) ∧
    loginEndpoint users db st ip hdr email password newTok ua now ttl limit =
      (⟨403, "CSRF protection required"⟩, db,
        (check_rate_limit st ip limit 60 now "auth").2) := by
  have hcsrf : verify_csrf_protection hdr =
      Except.error ⟨403, "CSRF protection required"⟩ := by
    unfold verify_csrf_protection
    rw [if_pos hhdr]
  constructor
  · unfold registerEndpoint
    simp only [hrl, hcsrf]
  · unfold loginEndpoint
    simp only [hrl, hcsrf]

/-- Witness for claim C10: a fresh limiter state admits the request and the
missing header is answered with the 403 CSRF error. -/
theorem c10_csrf_gate_witness :
    registerEndpoint [] [] "1.1.1.1" none "a@b.com" "pw" 0 10 =
      (⟨403, "CSRF protection required"⟩, [],
        (check_rate_limit [] "1.1.1.1" 10 60 0 "auth").2) :=
  (c10_csrf_gate [] [] [] "1.1.1.1" none "a@b.com" "pw" "nt" none 0 604800 10
    (by decide) rfl).1

end DataLab
